import Mathlib

/-!
Verification of `src/design-patterns/visitor3.cpp`: a visitor pattern built
from a CRTP `Visitable` mixin and a `FunctionAdapter` dispatcher that binds
one handler function per concrete shape type and caches the last result.

Embedding conventions:
* `double` values are modelled as rationals (`ℚ`); `std::string` as `String`.
* A handler `std::function<Result(T&)>` receives its argument by reference,
  so it is modelled as `T → Result × T`, returning the result together with
  the (possibly updated) referenced object.  The concrete lambdas in the
  file never write to their argument, so their embeddings return the input
  object unchanged.
* The mutable dispatcher is modelled by explicit state passing: `visit`
  returns the updated dispatcher and the updated shape.
* C++ value-initialization `Result{}` (used for `_res{}` in the
  constructor) is captured by the `ValueInit` class, instantiated at the
  two result types that occur in the file.
-/

namespace Visitor3

/-- `class Circle { double radius; }` -/
structure Circle where
  radius : ℚ
deriving DecidableEq

/-- `class Square { double side; }` -/
structure Square where
  side : ℚ
deriving DecidableEq

/-- `class Blob { }` -/
structure Blob where
deriving DecidableEq

/-- A concrete shape instance: one of the closed set of variant types. -/
inductive Shape
  | circle (c : Circle)
  | square (s : Square)
  | blob (b : Blob)
deriving DecidableEq

/-- C++ value-initialization `T{}` for the result types used in the file. -/
class ValueInit (α : Type) where
  init : α

/-- `std::string{}` is the empty string. -/
instance : ValueInit String := ⟨""⟩

/-- `double{}` is zero. -/
instance : ValueInit ℚ := ⟨0⟩

/-- `std::function<Result(T&)>`: result plus the referenced object after
the call. -/
def Func (T Result : Type) : Type := T → Result × T

/-- `template<class Result> class FunctionAdapter`: one handler per shape
type plus the last-result slot `_res`. -/
structure FunctionAdapter (Result : Type) where
  res : Result
  fn_circle : Func Circle Result
  fn_square : Func Square Result
  fn_blob : Func Blob Result

/-- The constructor `FunctionAdapter(fnCircle, fnSquare, fnBlob)`:
value-initializes `_res{}` and stores the three handlers. -/
def FunctionAdapter.make {Result : Type} [ValueInit Result]
    (fnCircle : Func Circle Result) (fnSquare : Func Square Result)
    (fnBlob : Func Blob Result) : FunctionAdapter Result :=
  { res := ValueInit.init
    fn_circle := fnCircle
    fn_square := fnSquare
    fn_blob := fnBlob }

/-- `Result get(){ return _res; }` -/
def FunctionAdapter.get {Result : Type} (d : FunctionAdapter Result) : Result :=
  d.res

/-- `void visit(Circle& sh) { _res = _fn_circle(sh); }` -/
def FunctionAdapter.visitCircle {Result : Type} (d : FunctionAdapter Result)
    (sh : Circle) : FunctionAdapter Result × Circle :=
  let r := d.fn_circle sh
  ({ d with res := r.1 }, r.2)

/-- `void visit(Square& sh) { _res = _fn_square(sh); }` -/
def FunctionAdapter.visitSquare {Result : Type} (d : FunctionAdapter Result)
    (sh : Square) : FunctionAdapter Result × Square :=
  let r := d.fn_square sh
  ({ d with res := r.1 }, r.2)

/-- `void visit(Blob& sh) { _res = _fn_blob(sh); }` -/
def FunctionAdapter.visitBlob {Result : Type} (d : FunctionAdapter Result)
    (sh : Blob) : FunctionAdapter Result × Blob :=
  let r := d.fn_blob sh
  ({ d with res := r.1 }, r.2)

/-- The overload set `visit(Circle&) / visit(Square&) / visit(Blob&)` as one
function on the closed variant set: overload resolution picks the member
matching the argument's concrete (static) type. -/
def FunctionAdapter.visit {Result : Type} (d : FunctionAdapter Result) :
    Shape → FunctionAdapter Result × Shape
  | Shape.circle c =>
      let p := d.visitCircle c
      (p.1, Shape.circle p.2)
  | Shape.square s =>
      let p := d.visitSquare s
      (p.1, Shape.square p.2)
  | Shape.blob b =>
      let p := d.visitBlob b
      (p.1, Shape.blob p.2)

/-- `template<class Visitable> Result operator()(Visitable& visitable)
{ this->visit(visitable); return this->get(); }` -/
def FunctionAdapter.call {Result : Type} (d : FunctionAdapter Result)
    (x : Shape) : Result × FunctionAdapter Result × Shape :=
  let p := d.visit x
  (p.1.get, p)

/-- `operator()` instantiated at `Visitable = Square` (the instantiation
`main` uses for `visitorGetName(s2)` and `visitorGetArea(s2)`). -/
def FunctionAdapter.callSquare {Result : Type} (d : FunctionAdapter Result)
    (sh : Square) : Result × FunctionAdapter Result × Square :=
  let p := d.visitSquare sh
  (p.1.get, p)

/-- `operator()` instantiated at `Visitable = Blob` (the instantiation
`main` uses for `visitorGetName(s3)`). -/
def FunctionAdapter.callBlob {Result : Type} (d : FunctionAdapter Result)
    (sh : Blob) : Result × FunctionAdapter Result × Blob :=
  let p := d.visitBlob sh
  (p.1.get, p)

/-- The value the handler bound for `x`'s concrete type produces on `x`
(the result component of the matching stored handler applied to `x`). -/
def FunctionAdapter.handlerResult {Result : Type} (d : FunctionAdapter Result) :
    Shape → Result
  | Shape.circle c => (d.fn_circle c).1
  | Shape.square s => (d.fn_square s).1
  | Shape.blob b => (d.fn_blob b).1

/-- `Visitable<Implementation>::accept(Visitor&& v)
{ v.visit(static_cast<Implementation&>(*this)); }`:
pure forwarding of the concrete instance itself to the visitor's
`visit` member. -/
def Visitable.accept {Impl V α : Type} (self : Impl) (v : V)
    (visitFn : V → Impl → α) : α :=
  visitFn v self

/-- The global `visitorGetName = FunctionAdapter<std::string>{...}` with its
three name-returning lambdas (none of which writes to its argument). -/
def visitorGetName : FunctionAdapter String :=
  FunctionAdapter.make
    (fun c => ("circle", c))
    (fun s => ("square", s))
    (fun b => ("blob", b))

/-- The global `visitorGetArea = FunctionAdapter<double>{...}` with its
three numeric lambdas (none of which writes to its argument). -/
def visitorGetArea : FunctionAdapter ℚ :=
  FunctionAdapter.make
    (fun c => (2 * 3.1415 * c.radius * c.radius, c))
    (fun s => (4.0 * s.side, s))
    (fun b => (-100.0, b))

/-- One token written to standard output by `operator<<`. -/
inductive OutTok
  | str (s : String)
  | num (q : ℚ)
deriving DecidableEq

/-- `int main()`: builds the three sample shapes, exercises both global
dispatchers (the `#if 1` block is active), and returns 0.  The result is
the ordered list of output tokens and the exit status. -/
def mainRun : List OutTok × Int :=
  let s1 := Circle.mk 3.0
  let s2 := Square.mk 4.0
  let s3 := Blob.mk
  -- s1.accept(visitorGetName);
  let p1 := Visitable.accept s1 visitorGetName FunctionAdapter.visitCircle
  let gn1 := p1.1
  -- std::cout << "Type of shape 2 = " << visitorGetName(s2) << "\n";
  let c2 := gn1.callSquare s2
  let gn2 := c2.2.1
  -- std::cout << "Type of shape 3 = " << visitorGetName(s3) << "\n";
  let c3 := gn2.callBlob s3
  -- s1.accept(visitorGetArea);
  let a1 := Visitable.accept p1.2 visitorGetArea FunctionAdapter.visitCircle
  let ga1 := a1.1
  -- s2.accept(visitorGetArea);
  let a2 := Visitable.accept c2.2.2 ga1 FunctionAdapter.visitSquare
  let ga2 := a2.1
  -- std::cout << "Perimeter of shape 2 = " << visitorGetArea(s2) << "\n";
  let c4 := ga2.callSquare a2.2
  let ga3 := c4.2.1
  -- s3.accept(visitorGetArea);
  let a3 := Visitable.accept c3.2.2 ga3 FunctionAdapter.visitBlob
  let ga4 := a3.1
  ([ OutTok.str "===> Experiment 1: FunctionAdapter ", OutTok.str "\n",
     OutTok.str "Type of shape 1 = ", OutTok.str gn1.get, OutTok.str "\n",
     OutTok.str "Type of shape 2 = ", OutTok.str c2.1, OutTok.str "\n",
     OutTok.str "Type of shape 3 = ", OutTok.str c3.1, OutTok.str "\n",
     OutTok.str "===> Experiment 2: FunctionAdapter ", OutTok.str "\n",
     OutTok.str "Perimeter of shape 1 = ", OutTok.num ga1.get, OutTok.str "\n",
     OutTok.str "Perimeter of shape 2 = ", OutTok.num ga2.get, OutTok.str "\n",
     OutTok.str "Perimeter of shape 2 = ", OutTok.num c4.1, OutTok.str "\n",
     OutTok.str "Perimeter of shape 3 = ", OutTok.num ga4.get, OutTok.str "\n" ],
   0)

/-- C1: for every dispatcher `D` over the closed variant set and every
variant instance `x`, the callable form `D(x)` (`operator()`) returns the
value produced by the handler bound at construction for `x`'s concrete
type, applied to `x`. -/
theorem call_returns_bound_handler_result {Result : Type}
    (d : FunctionAdapter Result) (x : Shape) :
    (d.call x).1 = d.handlerResult x := by
  cases x <;> rfl

/-- C2: after `D.visit x`, `D.get` equals the result of the handler
matching `x`'s concrete type; after a subsequent `D.visit y` the slot
holds exactly the handler result for `y` — only the most recent
invocation's result, no accumulated history. -/
theorem visit_sets_exactly_last_result {Result : Type}
    (d : FunctionAdapter Result) (x y : Shape) :
    ((d.visit x).1).get = d.handlerResult x ∧
    (((d.visit x).1.visit y).1).get = d.handlerResult y := by
  cases x <;> cases y <;> exact ⟨rfl, rfl⟩

/-- C3: `visitorGetArea` on `Circle(3.0)` yields `2 * 3.1415 * 3 * 3`,
which is within `1/100` of `2π·3·3 = 56.5486...`; on `Square(4.0)` it
yields exactly `16`; on `Blob()` exactly `-100`. -/
theorem visitorGetArea_metrics :
    (visitorGetArea.call (Shape.circle (Circle.mk 3.0))).1 = 2 * 3.1415 * 3 * 3 ∧
    |(((visitorGetArea.call (Shape.circle (Circle.mk 3.0))).1 : ℚ) : ℝ) -
        2 * Real.pi * 3 * 3| < 1 / 100 ∧
    (visitorGetArea.call (Shape.square (Square.mk 4.0))).1 = 16 ∧
    (visitorGetArea.call (Shape.blob Blob.mk)).1 = -100 := by
  have hq : (visitorGetArea.call (Shape.circle (Circle.mk 3.0))).1 =
      (56547 / 1000 : ℚ) := by
    norm_num [visitorGetArea, FunctionAdapter.make, FunctionAdapter.call,
      FunctionAdapter.visit, FunctionAdapter.visitCircle, FunctionAdapter.get]
  refine ⟨?_, ?_, ?_, ?_⟩
  · norm_num [visitorGetArea, FunctionAdapter.make, FunctionAdapter.call,
      FunctionAdapter.visit, FunctionAdapter.visitCircle, FunctionAdapter.get]
  · rw [hq]
    have h1 := Real.pi_gt_d4
    have h2 := Real.pi_lt_d4
    rw [abs_sub_lt_iff]
    norm_num at h1 h2 ⊢
    constructor <;> nlinarith
  · norm_num [visitorGetArea, FunctionAdapter.make, FunctionAdapter.call,
      FunctionAdapter.visit, FunctionAdapter.visitSquare, FunctionAdapter.get]
  · norm_num [visitorGetArea, FunctionAdapter.make, FunctionAdapter.call,
      FunctionAdapter.visit, FunctionAdapter.visitBlob, FunctionAdapter.get]

/-- C4: the callable form `D(x)` is exactly `D.visit x` followed by
`D.get`: same returned value and same final state (dispatcher and shape),
with no additional effect. -/
theorem call_equals_visit_then_get {Result : Type}
    (d : FunctionAdapter Result) (x : Shape) :
    d.call x = (((d.visit x).1).get, d.visit x) := by
  cases x <;> rfl

/-- C5: `visitorGetName` yields `"circle"` on any `Circle` (and `get`
afterwards also yields `"circle"`), `"square"` on any `Square`, and
`"blob"` on `Blob`. -/
theorem visitorGetName_results (r s : ℚ) :
    (visitorGetName.call (Shape.circle (Circle.mk r))).1 = "circle" ∧
    ((visitorGetName.visit (Shape.circle (Circle.mk r))).1).get = "circle" ∧
    (visitorGetName.call (Shape.square (Square.mk s))).1 = "square" ∧
    (visitorGetName.call (Shape.blob Blob.mk)).1 = "blob" :=
  ⟨rfl, rfl, rfl, rfl⟩

/-- C6: `accept` forwards the exact concrete instance to the visitor's
matching `visit` overload — submitting a shape to a dispatcher is equal,
result and effects included, to calling the dispatcher's per-type `visit`
on that very instance. -/
theorem accept_forwards_exact_instance {Result : Type}
    (d : FunctionAdapter Result) (c : Circle) (s : Square) (b : Blob) :
    Visitable.accept c d FunctionAdapter.visitCircle = d.visitCircle c ∧
    Visitable.accept s d FunctionAdapter.visitSquare = d.visitSquare s ∧
    Visitable.accept b d FunctionAdapter.visitBlob = d.visitBlob b :=
  ⟨rfl, rfl, rfl⟩

/-- C7: the handler table fixed at construction is unchanged by `visit`
and by `operator()`: only the last-result slot is mutated. -/
theorem handler_table_immutable {Result : Type}
    (d : FunctionAdapter Result) (x : Shape) :
    ((d.visit x).1.fn_circle = d.fn_circle ∧
     (d.visit x).1.fn_square = d.fn_square ∧
     (d.visit x).1.fn_blob = d.fn_blob) ∧
    ((d.call x).2.1.fn_circle = d.fn_circle ∧
     (d.call x).2.1.fn_square = d.fn_square ∧
     (d.call x).2.1.fn_blob = d.fn_blob) := by
  cases x <;> exact ⟨⟨rfl, rfl, rfl⟩, ⟨rfl, rfl, rfl⟩⟩

/-- C8: `main` prints the demonstration results to standard output and
terminates with exit status 0, unconditionally. -/
theorem mainRun_exits_zero_with_outputs :
    mainRun.2 = 0 ∧
    mainRun.1 =
      [ OutTok.str "===> Experiment 1: FunctionAdapter ", OutTok.str "\n",
        OutTok.str "Type of shape 1 = ", OutTok.str "circle", OutTok.str "\n",
        OutTok.str "Type of shape 2 = ", OutTok.str "square", OutTok.str "\n",
        OutTok.str "Type of shape 3 = ", OutTok.str "blob", OutTok.str "\n",
        OutTok.str "===> Experiment 2: FunctionAdapter ", OutTok.str "\n",
        OutTok.str "Perimeter of shape 1 = ", OutTok.num (56547 / 1000),
        OutTok.str "\n",
        OutTok.str "Perimeter of shape 2 = ", OutTok.num 16, OutTok.str "\n",
        OutTok.str "Perimeter of shape 2 = ", OutTok.num 16, OutTok.str "\n",
        OutTok.str "Perimeter of shape 3 = ", OutTok.num (-100),
        OutTok.str "\n" ] := by
  refine ⟨rfl, ?_⟩
  norm_num [mainRun, Visitable.accept, visitorGetName, visitorGetArea,
    FunctionAdapter.make, FunctionAdapter.visitCircle,
    FunctionAdapter.visitSquare, FunctionAdapter.visitBlob,
    FunctionAdapter.callSquare, FunctionAdapter.callBlob, FunctionAdapter.get]

/-- C9: `get` called right after construction returns the
value-initialized default of the result type — the empty string for
`FunctionAdapter<std::string>`, zero for `FunctionAdapter<double>` —
because the constructor initializes the slot with `_res{}`. -/
theorem make_initializes_last_result
    (fc : Func Circle String) (fs : Func Square String) (fb : Func Blob String)
    (gc : Func Circle ℚ) (gs : Func Square ℚ) (gb : Func Blob ℚ) :
    (FunctionAdapter.make fc fs fb).get = "" ∧
    (FunctionAdapter.make gc gs gb).get = 0 :=
  ⟨rfl, rfl⟩

/-- C10: both dispatchers defined in the file leave the dispatched shape
unchanged (their handlers only read it), so dispatching the same instance
twice yields equal results. -/
theorem named_dispatchers_leave_shapes_unchanged (x : Shape) :
    (visitorGetName.visit x).2 = x ∧
    (visitorGetArea.visit x).2 = x ∧
    ((visitorGetName.visit x).1.call x).1 = (visitorGetName.call x).1 ∧
    ((visitorGetArea.visit x).1.call x).1 = (visitorGetArea.call x).1 := by
  cases x <;> exact ⟨rfl, rfl, rfl, rfl⟩

end Visitor3
